import Mathlib

/-!
Shallow embedding of the concurrent download-and-record pipeline of
`civitai_scraper.py` (class `CivitaiScraper`), and proofs of the spec's
claims about it.

Conventions of the embedding:
* Byte strings are `List Nat` (one entry per byte).
* Dynamically-typed JSON-ish values from the API are `PyVal`
  (`null` stands both for Python `None` and for an absent dict key,
  which `dict.get` conflates).
* The SQLite `downloads` table is a `List DownloadRow` with
  INSERT OR REPLACE semantics (at most one row per `image_id`).
* The filesystem is a finite map `List (String × Nat)` from paths to
  byte sizes.
* Network I/O is passed in as an explicit `FetchResult` value; an
  exception raised anywhere inside the fetch/write block is modelled by
  `FetchResult.exc` (the code's `except Exception` handler).
* The per-process counters guarded by `stats_lock` are plain `Nat`
  fields of `ScraperState`; `fetch_count` counts the `session.get`
  calls performed (it is not a counter of the program, only an event
  log of the embedding used to state "no network fetch happened").
-/

namespace Civitai

/-- Dynamically typed value as it arrives from the API JSON.
`null` models both Python `None` and a missing dict key. -/
inductive PyVal where
  | null : PyVal
  | int (n : Int) : PyVal
  | str (s : String) : PyVal
deriving DecidableEq

/-- Python truthiness for the values we model: `None`, `0` and `""` are
falsy, everything else truthy. -/
def pyTruthy : PyVal → Bool
  | .null => false
  | .int n => n != 0
  | .str s => s != ""

/-- Python `a or b` on values (returns `a` when truthy, else `b`). -/
def pyOr (a b : PyVal) : PyVal := if pyTruthy a then a else b

/-- ASCII upper-casing of one character (every label this program
compares is ASCII, where Python `str.upper` agrees). -/
def asciiUpper (c : Char) : Char :=
  if 'a' ≤ c ∧ c ≤ 'z' then Char.ofNat (c.toNat - 32) else c

/-- `s.upper()` on ASCII strings. -/
def pyUpper (s : String) : String := String.mk (s.toList.map asciiUpper)

/-- `s.startswith(pre)`. -/
def pyStartsWith (s pre : String) : Bool := pre.toList.isPrefixOf s.toList

/-- Value of one decimal digit character. -/
def digitVal (c : Char) : Option Nat :=
  if '0' ≤ c ∧ c ≤ '9' then some (c.toNat - '0'.toNat) else none

/-- Left-to-right accumulation of a digit string's value. -/
def digitsValAux : Nat → List Char → Option Nat
  | acc, [] => some acc
  | acc, c :: cs =>
    match digitVal c with
    | some d => digitsValAux (10 * acc + d) cs
    | none => none

/-- Value of a nonempty all-digit character list. -/
def digitsVal : List Char → Option Nat
  | [] => none
  | cs => digitsValAux 0 cs

/-- Python `int(string)`: optional sign followed by decimal digits
(whitespace and underscore grouping, which Python also tolerates, do
not occur anywhere in this development). -/
def strToInt? (s : String) : Option Int :=
  match s.toList with
  | '-' :: cs => (digitsVal cs).map (fun n => -(n : Int))
  | '+' :: cs => (digitsVal cs).map (fun n => (n : Int))
  | cs => (digitsVal cs).map (fun n => (n : Int))

/-- Decimal digits of `n`, most significant first, by fuel recursion
(`fuel ≥ n` suffices). -/
def natDigitsAux : Nat → Nat → List Char
  | 0, _ => []
  | fuel + 1, n =>
    if n = 0 then []
    else natDigitsAux fuel (n / 10) ++ [Char.ofNat (48 + n % 10)]

/-- Python `str(n)` for a natural number. -/
def natToStr (n : Nat) : String :=
  if n = 0 then "0" else String.mk (natDigitsAux (n + 1) n)

/-- Python `str(n)` for an integer. -/
def intToStr : Int → String
  | .ofNat n => natToStr n
  | .negSucc n => "-" ++ natToStr (n + 1)

/-- Python `int(v)`: succeeds on ints and integer-shaped strings,
raises (here: `none`) on `None` and other strings. -/
def pyToInt? : PyVal → Option Int
  | .null => none
  | .int n => some n
  | .str s => strToInt? s

/-- Python `str(v)` for the values we model. -/
def pyStrOf : PyVal → String
  | .null => "None"
  | .int n => intToStr n
  | .str s => s

/-- Python `v == n` against an int literal (no cross-type equality). -/
def pyEqInt (v : PyVal) (n : Int) : Bool :=
  match v with
  | .int m => m == n
  | _ => false

/-- Python `v == s` against a string literal (no cross-type equality). -/
def pyEqStr (v : PyVal) (s : String) : Bool :=
  match v with
  | .str t => t == s
  | _ => false

/-- `s.lstrip('.')`: drop every leading dot. -/
def lstripDots (s : String) : String := String.mk (s.toList.dropWhile (· == '.'))

/-- Index just past the last `/` of a path (0 when there is none). -/
def lastComponentStart (cs : List Char) : Nat :=
  match cs.reverse.findIdx? (· == '/') with
  | some j => cs.length - j
  | none => 0

/-- Index of the last `.` of a character list, if any. -/
def lastDotIdx (cs : List Char) : Option Nat :=
  match cs.reverse.findIdx? (· == '.') with
  | some j => some (cs.length - 1 - j)
  | none => none

/-- `os.path.splitext(p)[0]`: everything before the last dot of the last
path component, except that a component made of leading dots only is
not split. -/
def splitextBase (p : String) : String :=
  let cs := p.toList
  let start := lastComponentStart cs
  let comp := cs.drop start
  match lastDotIdx comp with
  | some i =>
      if (comp.take i).all (· == '.') then p
      else String.mk (cs.take (start + i))
  | none => p

/-- `PurePath(p).suffix`: the extension including its dot, `""` if none. -/
def pathSuffix (p : String) : String := p.drop (splitextBase p).length

/-! ### Content sniffer (`_detect_image_format`) -/

/-- `b'ftypmp42'` -/
def ftypmp42 : List Nat := [0x66, 0x74, 0x79, 0x70, 0x6d, 0x70, 0x34, 0x32]

/-- `b'ftypisom'` -/
def ftypisom : List Nat := [0x66, 0x74, 0x79, 0x70, 0x69, 0x73, 0x6f, 0x6d]

/-- `b'\x1a\x45\xdf\xa3'` (Matroska/WebM) -/
def webmSig : List Nat := [0x1a, 0x45, 0xdf, 0xa3]

/-- `b'FLV'` -/
def flvSig : List Nat := [0x46, 0x4c, 0x56]

/-- `b'\x89PNG\r\n\x1a\n'` -/
def pngSig : List Nat := [0x89, 0x50, 0x4e, 0x47, 0x0d, 0x0a, 0x1a, 0x0a]

/-- `b'\xff\xd8\xff'` (JPEG) -/
def jpgSig : List Nat := [0xff, 0xd8, 0xff]

/-- `b'RIFF'` -/
def riffSig : List Nat := [0x52, 0x49, 0x46, 0x46]

/-- `b'WEBP'` -/
def webpTag : List Nat := [0x57, 0x45, 0x42, 0x50]

/-- `b'GIF87a'` -/
def gif87a : List Nat := [0x47, 0x49, 0x46, 0x38, 0x37, 0x61]

/-- `b'GIF89a'` -/
def gif89a : List Nat := [0x47, 0x49, 0x46, 0x38, 0x39, 0x61]

/-- Python slice `data[a:b]`. -/
def pySlice (data : List Nat) (a b : Nat) : List Nat := (data.take b).drop a

/-- Python `needle in hay` on byte strings: contiguous substring test. -/
def bytesIn (needle hay : List Nat) : Bool :=
  (List.range (hay.length + 1)).any (fun i => needle.isPrefixOf (hay.drop i))

/-- `_detect_image_format(data)`: classify a payload by magic bytes,
returning `(extension, is_video)`; `.jpg` image is the fallback. -/
def _detect_image_format (data : List Nat) : String × Bool :=
  if pySlice data 4 12 == ftypmp42 || pySlice data 4 12 == ftypisom then (".mp4", true)
  else if pySlice data 0 4 == webmSig then (".webm", true)
  else if pySlice data 0 3 == flvSig then (".flv", true)
  else if pngSig.isPrefixOf data then (".png", false)
  else if jpgSig.isPrefixOf data then (".jpg", false)
  else if riffSig.isPrefixOf data && bytesIn webpTag (pySlice data 0 12) then (".webp", false)
  else if gif87a.isPrefixOf data || gif89a.isPrefixOf data then (".gif", false)
  else (".jpg", false)

/-! ### Content-rating normalization (`_convert_nsfw_to_level`,
`_get_nsfw_folder`) -/

/-- Result of `_convert_nsfw_to_level`: the integer level together with
whether the "Unknown NSFW value" warning was logged. -/
structure NsfwLevelResult where
  level : Int
  warned : Bool
deriving DecidableEq

/-- The string-label table of `_convert_nsfw_to_level` (keys upper-cased
as in the source). -/
def nsfw_mapping : List (String × Int) :=
  [("NONE", 0), ("SOFT", 1), ("MATURE", 2), ("MATURE+", 4), ("X", 5), ("XXX", 6)]

/-- `_convert_nsfw_to_level(nsfw_value)`: `None` maps to 0; a value
`int()` accepts is returned as is; otherwise the upper-cased string is
looked up in the label table, defaulting to 0 with a warning. -/
def _convert_nsfw_to_level (nsfw_value : PyVal) : NsfwLevelResult :=
  match nsfw_value with
  | .null => ⟨0, false⟩
  | v =>
    match pyToInt? v with
    | some n => ⟨n, false⟩
    | none =>
      let nsfw_str := pyUpper (pyStrOf v)
      match nsfw_mapping.lookup nsfw_str with
      | some l => ⟨l, false⟩
      | none => ⟨0, true⟩

/-- `_get_nsfw_folder(nsfw_level)`: two-bucket folder scheme. -/
def _get_nsfw_folder (nsfw_level : PyVal) : String :=
  if (_convert_nsfw_to_level nsfw_level).level ≤ 1 then "SFW" else "NSFW"

/-! ### Persistence ledger (the SQLite `downloads` table) -/

/-- One row of the `downloads` table (the columns the pipeline writes). -/
structure DownloadRow where
  image_id : String
  url : String
  filename : String
  file_extension : String
  file_size : Nat
  width : Option Int
  height : Option Int
  nsfw_level : Option Int
  status : String
  error_message : Option String
  folder_path : Option String
deriving DecidableEq

/-- `INSERT OR REPLACE INTO downloads`: at most one row per
`image_id`. -/
def upsertRow (ledger : List DownloadRow) (r : DownloadRow) : List DownloadRow :=
  r :: ledger.filter (fun x => x.image_id != r.image_id)

/-- Row lookup by primary key. -/
def findRow (ledger : List DownloadRow) (image_id : String) : Option DownloadRow :=
  ledger.find? (fun x => x.image_id == image_id)

/-- `_is_downloaded_db(image_id)`: a row with that id exists whose
status is `success` or `migrated`. -/
def _is_downloaded_db (ledger : List DownloadRow) (image_id : String) : Bool :=
  ledger.any (fun r =>
    r.image_id == image_id && (r.status == "success" || r.status == "migrated"))

/-- The metadata dict assembled by `_download_batch` for one item
(the fields `_log_download_db` and `download_image` read). -/
structure Metadata where
  width : PyVal
  height : PyVal
  nsfw : PyVal
  nsfwLevel : PyVal
deriving DecidableEq

/-- `_log_download_db(...)`: upsert one row into `downloads`, with the
defensive width/height/nsfw conversions of the source (a value that
fails `int()` is stored as NULL, never raises). -/
def _log_download_db (ledger : List DownloadRow) (image_id url filename : String)
    (file_size : Nat) (metadata : Option Metadata) (status : String)
    (error : Option String) (folder_path : Option String) : List DownloadRow :=
  let width : Option Int :=
    match metadata with
    | some m => if pyTruthy m.width then pyToInt? m.width else none
    | none => none
  let height : Option Int :=
    match metadata with
    | some m => if pyTruthy m.height then pyToInt? m.height else none
    | none => none
  let nsfw_level : Option Int :=
    match metadata with
    | some m =>
      match pyOr m.nsfwLevel m.nsfw with
      | .null => none
      | v => some (_convert_nsfw_to_level v).level
    | none => none
  let file_ext := lstripDots (pathSuffix filename)
  upsertRow ledger
    ⟨image_id, url, filename, file_ext, file_size, width, height, nsfw_level,
     status, error, folder_path⟩

/-! ### Worker state and configuration -/

/-- The filesystem: a finite map from paths to byte sizes. -/
abbrev FileSys := List (String × Nat)

/-- Write (or overwrite) a file of `n` bytes at `p`. -/
def addFile (fs : FileSys) (p : String) (n : Nat) : FileSys :=
  (p, n) :: fs.filter (fun q => q.1 != p)

/-- `os.remove(p)` (also used for the no-op cleanup of an absent temp
file in the exception handler). -/
def removeFile (fs : FileSys) (p : String) : FileSys :=
  fs.filter (fun q => q.1 != p)

/-- `Path(p).exists()`. -/
def containsFile (fs : FileSys) (p : String) : Bool :=
  fs.any (fun q => q.1 == p)

/-- `Path(p).stat().st_size`. -/
def lookupFile (fs : FileSys) (p : String) : Option Nat :=
  (fs.find? (fun q => q.1 == p)).map (fun q => q.2)

/-- Scraper configuration (the `__init__` attributes the pipeline
reads). `videos_dir` and `metadata_dir` are derived from `output_dir`
exactly as in the constructor. -/
structure Config where
  output_dir : String
  use_database : Bool
  dry_run : Bool
  allowed_types : Option (List String)
  organize_by_nsfw : Bool
  enable_retry : Bool
  max_retries : Nat

/-- `self.videos_dir = self.output_dir / "videos"` -/
def Config.videos_dir (c : Config) : String := c.output_dir ++ "/videos"

/-- `self.metadata_dir = self.output_dir / "metadata"` -/
def Config.metadata_dir (c : Config) : String := c.output_dir ++ "/metadata"

/-- Mutable worker-shared state: the ledger, the text-log id set, the
filesystem, the counters guarded by `stats_lock`, and the running byte
total of `DownloadStatistics`. `fetch_count` records how many payload
GETs were issued. -/
structure ScraperState where
  ledger : List DownloadRow
  downloaded_ids : List String
  files : FileSys
  downloaded_count : Nat
  skipped_count : Nat
  failed_count : Nat
  filtered_type_count : Nat
  total_bytes : Nat
  fetch_count : Nat
deriving DecidableEq

/-- Outcome of the streaming GET of one attempt: the list of chunks
delivered by `iter_content`, or an exception raised anywhere inside
the `try` block. -/
inductive FetchResult where
  | ok (chunks : List (List Nat)) : FetchResult
  | exc (msg : String) : FetchResult

/-- The status component of `download_image`'s `(success, status)`
return value, one constructor per return path of the source. -/
inductive DLStatus where
  | skippedInDb : DLStatus
  | skippedInLog : DLStatus
  | simulated : DLStatus
  | skippedType (ext : String) : DLStatus
  | skippedExists : DLStatus
  | downloaded : DLStatus
  | emptyFile : DLStatus
  | exc (msg : String) : DLStatus
deriving DecidableEq

/-- The literal status string the source returns for each path. -/
def DLStatus.text : DLStatus → String
  | .skippedInDb => "skipped (in database)"
  | .skippedInLog => "skipped (in log)"
  | .simulated => "simulated"
  | .skippedType ext => "skipped (type: " ++ ext ++ ")"
  | .skippedExists => "skipped (exists)"
  | .downloaded => "downloaded"
  | .emptyFile => "error: empty file"
  | .exc msg => "error: " ++ msg

/-- The success boolean the source pairs with each status. -/
def DLStatus.ok : DLStatus → Bool
  | .emptyFile => false
  | .exc _ => false
  | _ => true

/-- Result of one `download_image` call: new state plus the
`(success, status)` pair. -/
structure DLResult where
  state : ScraperState
  ok : Bool
  status : DLStatus
deriving DecidableEq

/-- The duplicate check opening `download_image`: a truthy id already
satisfied in the ledger (or, in text-log mode, present in the id set)
yields the corresponding skip status. -/
def dupCheckStatus (c : Config) (s : ScraperState) (image_id : PyVal) : Option DLStatus :=
  if pyTruthy image_id then
    if c.use_database then
      if _is_downloaded_db s.ledger (pyStrOf image_id) then some .skippedInDb else none
    else
      if s.downloaded_ids.contains (pyStrOf image_id) then some .skippedInLog else none
  else none

/-- Final placement path, metadata-file path and ledger `folder_path`
for a sniffed payload (step 6 of the worker protocol). -/
def computePaths (c : Config) (metadata : Option Metadata) (filename : String)
    (actual_extension : String) (is_video : Bool) : String × String × Option String :=
  let base_name := splitextBase filename
  let correct_filename := base_name ++ actual_extension
  if c.organize_by_nsfw then
    let nsfw_raw : PyVal :=
      match metadata with
      | some m => pyOr m.nsfwLevel m.nsfw
      | none => .null
    let nsfw_folder := _get_nsfw_folder nsfw_raw
    let fp := if is_video then
                c.videos_dir ++ "/" ++ nsfw_folder ++ "/" ++ correct_filename
              else
                c.output_dir ++ "/" ++ nsfw_folder ++ "/" ++ correct_filename
    let mp := c.output_dir ++ "/" ++ nsfw_folder ++ "/metadata/" ++ base_name ++ ".json"
    let folderp := if is_video then "videos/" ++ nsfw_folder else nsfw_folder
    (fp, mp, some folderp)
  else
    let fp := if is_video then c.videos_dir ++ "/" ++ correct_filename
              else c.output_dir ++ "/" ++ correct_filename
    (fp, c.metadata_dir ++ "/" ++ base_name ++ ".json", none)

/-- Steps 7–8 of the worker protocol for a payload that passed the
type filter: duplicate-on-disk check, else rename into place, write
the metadata companion, and record in the ledger or the text log. -/
def placeAndRecord (c : Config) (s1 : ScraperState) (url filename : String)
    (metadata : Option Metadata) (image_id : PyVal) (payloadSize : Nat)
    (actual_extension : String) (is_video : Bool) : DLResult :=
  let temp_filepath := c.output_dir ++ "/temp_" ++ filename
  let pathInfo := computePaths c metadata filename actual_extension is_video
  let filepath := pathInfo.1
  let meta_path := pathInfo.2.1
  let folder_path := pathInfo.2.2
  if containsFile s1.files filepath then
    let s2 := { s1 with files := removeFile s1.files temp_filepath }
    let s3 :=
      if pyTruthy image_id then
        if c.use_database then
          if !(_is_downloaded_db s2.ledger (pyStrOf image_id)) then
            let file_size := (lookupFile s2.files filepath).getD 0
            { s2 with ledger := _log_download_db s2.ledger (pyStrOf image_id) url
                        filepath file_size metadata "success" none folder_path }
          else s2
        else
          if !(s2.downloaded_ids.contains (pyStrOf image_id)) then
            { s2 with downloaded_ids := s2.downloaded_ids ++ [pyStrOf image_id] }
          else s2
      else s2
    ⟨{ s3 with skipped_count := s3.skipped_count + 1 }, true, .skippedExists⟩
  else
    let s2 := { s1 with
      files := addFile (removeFile s1.files temp_filepath) filepath payloadSize }
    let s3 :=
      match metadata with
      | some _ => { s2 with files := addFile s2.files meta_path 0 }
      | none => s2
    let file_size := (lookupFile s3.files filepath).getD 0
    let s4 :=
      if pyTruthy image_id then
        if c.use_database then
          { s3 with ledger := _log_download_db s3.ledger (pyStrOf image_id) url
                      filepath file_size metadata "success" none folder_path }
        else
          { s3 with downloaded_ids := s3.downloaded_ids ++ [pyStrOf image_id] }
      else s3
    ⟨{ s4 with downloaded_count := s4.downloaded_count + 1,
               total_bytes := s4.total_bytes + file_size }, true, .downloaded⟩

/-- Steps 4–5 of the worker protocol: sniff the first chunk, apply the
file-type allow-list, then hand over to placement. -/
def handlePayload (c : Config) (s1 : ScraperState) (url filename : String)
    (metadata : Option Metadata) (image_id : PyVal) (payloadSize : Nat)
    (fc : List Nat) : DLResult :=
  let fmt := _detect_image_format fc
  let ext_without_dot := lstripDots fmt.1
  let filteredOut : Bool :=
    match c.allowed_types with
    | some allowed => !(allowed.contains ext_without_dot)
    | none => false
  if filteredOut then
    ⟨{ s1 with files := removeFile s1.files (c.output_dir ++ "/temp_" ++ filename),
               filtered_type_count := s1.filtered_type_count + 1 },
     true, .skippedType ext_without_dot⟩
  else
    placeAndRecord c s1 url filename metadata image_id payloadSize fmt.1 fmt.2

/-- `download_image(url, filename, metadata, image_id)`, single
attempt.  The streaming GET's outcome is the explicit `resp` argument;
the duplicate check, dry-run early return, temp-file write and
empty-payload failure are here, the rest of the per-item protocol in
`handlePayload`/`placeAndRecord`; together they follow the source line
by line. -/
def download_image (c : Config) (s : ScraperState) (url filename : String)
    (metadata : Option Metadata) (image_id : PyVal) (resp : FetchResult) : DLResult :=
  match dupCheckStatus c s image_id with
  | some st => ⟨{ s with skipped_count := s.skipped_count + 1 }, true, st⟩
  | none =>
  if c.dry_run then
    ⟨{ s with downloaded_count := s.downloaded_count + 1 }, true, .simulated⟩
  else
  let temp_filepath := c.output_dir ++ "/temp_" ++ filename
  match resp with
  | .exc msg =>
      ⟨{ s with fetch_count := s.fetch_count + 1,
                files := removeFile s.files temp_filepath,
                failed_count := s.failed_count + 1 }, false, .exc msg⟩
  | .ok chunks =>
      let payloadSize := (chunks.map List.length).sum
      let s1 : ScraperState :=
        { s with fetch_count := s.fetch_count + 1,
                 files := addFile s.files temp_filepath payloadSize }
      match chunks.head? with
      | none =>
          ⟨{ s1 with files := removeFile s1.files temp_filepath,
                     failed_count := s1.failed_count + 1 }, false, .emptyFile⟩
      | some fc =>
        if fc.isEmpty then
          ⟨{ s1 with files := removeFile s1.files temp_filepath,
                     failed_count := s1.failed_count + 1 }, false, .emptyFile⟩
        else
          handlePayload c s1 url filename metadata image_id payloadSize fc

/-! ### Retry wrapper (`_download_with_retry`) -/

/-- Python `f"...{last_error}"` of an optional string. -/
def optErrText : Option String → String
  | some e => e
  | none => "None"

/-- Result of the retry wrapper: final state, the `(success, status)`
pair (the status here is the raw string the source returns), and the
list of back-off sleep durations in the order `time.sleep` was
called. -/
structure RetryResult where
  state : ScraperState
  ok : Bool
  statusText : String
  sleeps : List ℚ
deriving DecidableEq

/-- The `for attempt in range(1, max_retries + 1)` loop of
`_download_with_retry`, by recursion on the number of remaining
attempts; `max_retries - k` is the current 1-based attempt number.
Attempt `attempt` consumes `resps attempt`. -/
def _download_with_retry_aux (c : Config) (url filename : String)
    (metadata : Option Metadata) (image_id : PyVal) (resps : Nat → FetchResult)
    (max_retries : Nat) (backoff_factor : ℚ) :
    Nat → ScraperState → Option String → RetryResult
  | 0, s, last_error =>
      ⟨s, false,
       "failed after " ++ natToStr max_retries ++ " retries: " ++ optErrText last_error,
       []⟩
  | k + 1, s, _ =>
      let attempt := max_retries - k
      let r := download_image c s url filename metadata image_id (resps attempt)
      if r.ok || pyStartsWith r.status.text "skipped" then
        ⟨r.state, r.ok, r.status.text, []⟩
      else
        let last_error := some r.status.text
        if attempt < max_retries then
          let wait_time := backoff_factor ^ (attempt - 1)
          let rest := _download_with_retry_aux c url filename metadata image_id resps
                        max_retries backoff_factor k r.state last_error
          ⟨rest.state, rest.ok, rest.statusText, wait_time :: rest.sleeps⟩
        else
          _download_with_retry_aux c url filename metadata image_id resps
            max_retries backoff_factor k r.state last_error

/-- `_download_with_retry(url, filename, metadata, image_id,
max_retries, backoff_factor)`. -/
def _download_with_retry (c : Config) (s : ScraperState) (url filename : String)
    (metadata : Option Metadata) (image_id : PyVal) (resps : Nat → FetchResult)
    (max_retries : Nat) (backoff_factor : ℚ) : RetryResult :=
  _download_with_retry_aux c url filename metadata image_id resps max_retries
    backoff_factor max_retries s none

/-! ### Batch dispatch and pagination filters -/

/-- One item of an API page (the keys the pipeline reads; a missing
key is `PyVal.null`, exactly what `dict.get` yields). -/
structure Item where
  id : PyVal
  url : PyVal
  width : PyVal
  height : PyVal
  nsfw : PyVal
  nsfwLevel : PyVal
deriving DecidableEq

/-- The metadata dict `_download_batch` assembles for one item. -/
def mkItemMetadata (item : Item) : Metadata :=
  ⟨item.width, item.height, item.nsfw, item.nsfwLevel⟩

/-- `_download_batch(items, save_metadata)`: one task per item with a
derived working filename (items without a url are dropped with no
counter update), each task run through `_download_with_retry` or bare
`download_image` per `enable_retry`.  The thread pool is modelled by a
sequential fold in submission order: each item's effect on the shared
state is independent of completion interleaving because every state
update in the source is taken under a lock, so the fold represents one
legal completion order. -/
def _download_batch (c : Config) (save_metadata : Bool)
    (resps : Item → Nat → FetchResult) (backoff_factor : ℚ)
    (items : List Item) (s : ScraperState) : ScraperState :=
  items.foldl (fun st item =>
    if !(pyTruthy item.url) then st
    else
      let filename := "civitai_" ++ pyStrOf item.id ++ ".tmp"
      let metadata := if save_metadata then some (mkItemMetadata item) else none
      if c.enable_retry then
        (_download_with_retry c st (pyStrOf item.url) filename metadata item.id
          (resps item) c.max_retries backoff_factor).state
      else
        (download_image c st (pyStrOf item.url) filename metadata item.id
          (resps item 1)).state) s

/-- The `nsfw_only` filtering step of `scrape`:
`item.get('nsfwLevel') in [5, 6] or item.get('nsfw') in ['X', 'XXX']`
(Python equality, so a string-valued `nsfwLevel` never matches the
integer literals). -/
def nsfwOnlyFilter (items : List Item) : List Item :=
  items.filter (fun item =>
    pyEqInt item.nsfwLevel 5 || pyEqInt item.nsfwLevel 6 ||
    pyEqStr item.nsfw "X" || pyEqStr item.nsfw "XXX")

/-- `int(item.get('width', 0)) if item.get('width') else 0` with the
`except` clause yielding `none`: a falsy value parses to 0, a truthy
value must be `int()`-parseable. -/
def parseDim (v : PyVal) : Option Int :=
  if pyTruthy v then pyToInt? v else some 0

/-- The `min_resolution` filtering step of `scrape`: keep items whose
longer parsed side reaches the threshold; a parse failure on either
dimension drops the item (`continue` in the `except` handler). -/
def minResolutionFilter (min_resolution : Int) (items : List Item) : List Item :=
  items.filter (fun item =>
    match parseDim item.width with
    | none => false
    | some w =>
      match parseDim item.height with
      | none => false
      | some h => decide (max w h ≥ min_resolution))

/-- The normalized content-rating level of an item, as the pipeline
derives it everywhere else (`metadata.get('nsfwLevel') or
metadata.get('nsfw')` fed to `_convert_nsfw_to_level`). -/
def itemNsfwLevel (item : Item) : Int :=
  (_convert_nsfw_to_level (pyOr item.nsfwLevel item.nsfw)).level

/-! ### Spec-side definitions

`snifferRules`/`classify_spec` are written from the spec's words (§4.1
"Rules, checked in order, first match wins"), to be compared with the
source-derived `_detect_image_format`. -/

/-- The documented sniffer rule table, in order: each entry is the
rule's predicate and its `(extension, is_video)` result. -/
def snifferRules : List ((List Nat → Bool) × (String × Bool)) :=
  [ (fun d => pySlice d 4 12 == ftypmp42 || pySlice d 4 12 == ftypisom, (".mp4", true)),
    (fun d => webmSig.isPrefixOf d, (".webm", true)),
    (fun d => flvSig.isPrefixOf d, (".flv", true)),
    (fun d => pngSig.isPrefixOf d, (".png", false)),
    (fun d => jpgSig.isPrefixOf d, (".jpg", false)),
    (fun d => riffSig.isPrefixOf d && bytesIn webpTag (pySlice d 0 12), (".webp", false)),
    (fun d => gif87a.isPrefixOf d || gif89a.isPrefixOf d, (".gif", false)) ]

/-- First matching rule wins; no match yields the fallback
`(".jpg", false)`, not an error. -/
def classify_spec (d : List Nat) : String × Bool :=
  match snifferRules.find? (fun rule => rule.1 d) with
  | some rule => rule.2
  | none => (".jpg", false)

/-- Item whose raw `nsfwLevel` is the string `"5"`: its normalized
level is 5, yet the string never equals the integer literals the
`nsfw_only` filter compares against. -/
def c7Item : Item :=
  ⟨PyVal.str "10", PyVal.str "https://x/a.jpeg", PyVal.null, PyVal.null,
   PyVal.null, PyVal.str "5"⟩

/-- Item with declared width 4000 and height 1000. -/
def c8ItemKept : Item :=
  ⟨PyVal.str "1", PyVal.str "https://x/a.jpeg", PyVal.int 4000, PyVal.int 1000,
   PyVal.null, PyVal.null⟩

/-- Item whose declared width does not parse as an integer. -/
def c8ItemBad : Item :=
  ⟨PyVal.str "2", PyVal.str "https://x/b.jpeg", PyVal.str "abc", PyVal.int 4000,
   PyVal.null, PyVal.null⟩

/-- Ledger after one fully successful run over the single item
`c1Item`. -/
def c1Ledger : List DownloadRow :=
  [⟨"10", "https://x/a.jpeg", "downloads/civitai_10.png", "png", 5,
    none, none, none, "success", none, none⟩]

/-- The item of that run, encountered again on the re-run. -/
def c1Item : Item :=
  ⟨PyVal.str "10", PyVal.str "https://x/a.jpeg", PyVal.null, PyVal.null,
   PyVal.null, PyVal.null⟩

/-- State at the start of the re-run: fresh counters, the ledger
carried over. -/
def c1State : ScraperState := ⟨c1Ledger, [], [], 0, 0, 0, 0, 0, 0⟩

/-- Configuration of the re-run: database mode, retry enabled with the
default three attempts. -/
def cfgC1 : Config := ⟨"downloads", true, false, none, false, true, 3⟩

/-- Database-mode configuration with retry enabled, no allow-list, no
rating organization, default three attempts. -/
def cfgPlain : Config := ⟨"downloads", true, false, none, false, true, 3⟩

/-- Fresh state: empty ledger, empty filesystem, zero counters. -/
def emptyState : ScraperState := ⟨[], [], [], 0, 0, 0, 0, 0, 0⟩

/-- Fetches that fail the first two attempts and deliver a PNG payload
on the third. -/
def c3resps : Nat → FetchResult := fun n =>
  if n = 1 then .exc "boom1" else if n = 2 then .exc "boom2" else .ok [pngSig]

/-- Fetches that fail all attempts, with distinct error texts. -/
def c3respsFail : Nat → FetchResult := fun n =>
  if n = 1 then .exc "boom1" else if n = 2 then .exc "boom2" else .exc "boom3"

/-- State after `n` failed fetch attempts from `emptyState`. -/
def failedState (n : Nat) : ScraperState := ⟨[], [], [], 0, 0, n, 0, 0, n⟩

/-- Configuration with an allow-list of `["png"]`. -/
def cfgC5 : Config := ⟨"downloads", true, false, some ["png"], false, true, 3⟩

/-- Dry-run configuration. -/
def cfgDry : Config := ⟨"downloads", true, true, none, false, true, 3⟩

/-- State with a file already on disk at `downloads/f.png` (5 bytes)
but no ledger row for it. -/
def c6State : ScraperState := ⟨[], [], [("downloads/f.png", 5)], 0, 0, 0, 0, 0, 0⟩

/-- State after two failed attempts and one successful PNG download of
`"file.tmp"` from `"u"` for id `"7"` under `cfgPlain`. -/
def c3SuccState : ScraperState :=
  ⟨[⟨"7", "u", "downloads/file.png", "png", 8, none, none, none, "success",
     none, none⟩],
   [], [("downloads/file.png", 8)], 1, 0, 2, 0, 8, 3⟩

/-! ## Theorems -/

/-- A `startswith` test expressed as a slice comparison (Python's
`data[:n] == sig` agrees with `data.startswith(sig)` when `n` is the
signature's length). -/
theorem isPrefixOf_eq_sliceBeq (sig d : List Nat) (n : Nat) (h : sig.length = n) :
    sig.isPrefixOf d = (pySlice d 0 n == sig) := by
  subst h
  rw [Bool.eq_iff_iff, List.isPrefixOf_iff_prefix, beq_iff_eq, List.prefix_iff_eq_take]
  simp only [pySlice, List.drop_zero]
  exact eq_comm

/-- **C2.** The content sniffer checks the documented rules in order
with first match winning, and any input matching none of them yields
the fallback `(".jpg", false)`; in particular the PNG signature maps to
`(".png", false)`. -/
theorem c2_sniffer_first_match :
    (∀ d : List Nat, _detect_image_format d = classify_spec d) ∧
    _detect_image_format pngSig = (".png", false) := by
  constructor
  · intro d
    simp only [classify_spec, snifferRules, List.find?, _detect_image_format]
    rw [isPrefixOf_eq_sliceBeq webmSig d 4 rfl, isPrefixOf_eq_sliceBeq flvSig d 3 rfl,
        isPrefixOf_eq_sliceBeq pngSig d 8 rfl, isPrefixOf_eq_sliceBeq jpgSig d 3 rfl,
        isPrefixOf_eq_sliceBeq riffSig d 4 rfl, isPrefixOf_eq_sliceBeq gif87a d 6 rfl,
        isPrefixOf_eq_sliceBeq gif89a d 6 rfl]
    cases h1 : (pySlice d 4 12 == ftypmp42 || pySlice d 4 12 == ftypisom) <;>
    cases h2 : (pySlice d 0 4 == webmSig) <;>
    cases h3 : (pySlice d 0 3 == flvSig) <;>
    cases h4 : (pySlice d 0 8 == pngSig) <;>
    cases h5 : (pySlice d 0 3 == jpgSig) <;>
    cases h6 : (pySlice d 0 4 == riffSig && bytesIn webpTag (pySlice d 0 12)) <;>
    cases h7 : (pySlice d 0 6 == gif87a || pySlice d 0 6 == gif89a) <;>
    simp only [h1, h2, h3, h4, h5, h6, h7] <;> rfl
  · rfl

/-- Every level in the label table is between 0 and 6. -/
theorem nsfw_mapping_lookup_bounds (s : String) (lv : Int)
    (h : nsfw_mapping.lookup s = some lv) : 0 ≤ lv ∧ lv ≤ 6 := by
  simp only [nsfw_mapping, List.lookup] at h
  repeat' split at h
  all_goals simp_all
  all_goals omega

/-- **C4 counterexample.** The claim says every input yields a level in
the range 0–6, but an integer input is passed through unclamped: the
input `7` yields level `7`. -/
theorem c4_level_range_counterexample :
    (_convert_nsfw_to_level (PyVal.int 7)).level = 7 ∧
    ¬ ((_convert_nsfw_to_level (PyVal.int 7)).level ≤ 6) := by
  constructor
  · rfl
  · decide

/-- **C4 (amended).** The normalization returns the parsed integer
unchanged for every `int()`-parseable input (so the result can fall
outside 0–6); for all other inputs the result is in 0–6: `None` maps
to 0, the labels map per the (upper-cased, hence case-insensitive)
table, and an unrecognized string maps to 0 with a warning logged; in
particular `"Mature+"` yields 4, `"XXX"` yields 6 and `"Foo"` yields 0
with a warning. -/
theorem c4_nsfw_level_amended :
    (∀ (v : PyVal) (n : Int), pyToInt? v = some n →
      _convert_nsfw_to_level v = ⟨n, false⟩) ∧
    _convert_nsfw_to_level PyVal.null = ⟨0, false⟩ ∧
    (∀ (s : String) (lv : Int), pyToInt? (PyVal.str s) = none →
      nsfw_mapping.lookup (pyUpper s) = some lv →
      _convert_nsfw_to_level (PyVal.str s) = ⟨lv, false⟩) ∧
    (∀ s : String, pyToInt? (PyVal.str s) = none →
      nsfw_mapping.lookup (pyUpper s) = none →
      _convert_nsfw_to_level (PyVal.str s) = ⟨0, true⟩) ∧
    (∀ v : PyVal, pyToInt? v = none →
      0 ≤ (_convert_nsfw_to_level v).level ∧ (_convert_nsfw_to_level v).level ≤ 6) ∧
    _convert_nsfw_to_level (PyVal.str "Mature+") = ⟨4, false⟩ ∧
    _convert_nsfw_to_level (PyVal.str "XXX") = ⟨6, false⟩ ∧
    _convert_nsfw_to_level (PyVal.str "Foo") = ⟨0, true⟩ := by
  refine ⟨?_, rfl, ?_, ?_, ?_, by decide, by decide, by decide⟩
  · intro v n h
    cases v with
    | null => simp [pyToInt?] at h
    | int m =>
        simp only [pyToInt?, Option.some.injEq] at h
        subst h
        rfl
    | str s => simp [_convert_nsfw_to_level, pyToInt?] at h ⊢; simp [h]
  · intro s lv h hl
    simp [_convert_nsfw_to_level, pyToInt?] at h ⊢
    simp [h, pyStrOf, hl]
  · intro s h hl
    simp [_convert_nsfw_to_level, pyToInt?] at h ⊢
    simp [h, pyStrOf, hl]
  · intro v h
    cases v with
    | null => constructor <;> decide
    | int m => simp [pyToInt?] at h
    | str s =>
        simp only [pyToInt?] at h
        simp only [_convert_nsfw_to_level, pyToInt?, h]
        cases hl : nsfw_mapping.lookup (pyUpper (pyStrOf (PyVal.str s))) with
        | none => simp [hl]
        | some lv =>
            simp only [hl]
            exact nsfw_mapping_lookup_bounds _ _ hl

/-- **C4 witness.** The amended theorem applied at inputs `9` and
`"soft"`. -/
theorem c4_nsfw_level_amended_witness :
    _convert_nsfw_to_level (PyVal.int 9) = ⟨9, false⟩ ∧
    _convert_nsfw_to_level (PyVal.str "soft") = ⟨1, false⟩ :=
  ⟨c4_nsfw_level_amended.1 (PyVal.int 9) 9 rfl,
   c4_nsfw_level_amended.2.2.1 "soft" 1 (by decide) (by decide)⟩

/-- `pyEqInt` tests exact equality with an integer value. -/
theorem pyEqInt_eq_true (v : PyVal) (n : Int) :
    pyEqInt v n = true ↔ v = PyVal.int n := by
  cases v <;> simp [pyEqInt]

/-- `pyEqStr` tests exact equality with a string value. -/
theorem pyEqStr_eq_true (v : PyVal) (s : String) :
    pyEqStr v s = true ↔ v = PyVal.str s := by
  cases v <;> simp [pyEqStr]

/-- **C7 counterexample.** An item whose `nsfwLevel` field is the
string `"5"` (the API may deliver string numbers) has normalized
content-rating level 5, yet the rating-only filter drops it, because
the filter compares the raw field to the integer literals 5 and 6 and
the raw `nsfw` field to the labels, not the normalized level. -/
theorem c7_rating_filter_counterexample :
    itemNsfwLevel c7Item = 5 ∧ nsfwOnlyFilter [c7Item] = [] := by
  constructor
  · decide
  · decide

/-- **C7 (amended).** The rating-only filtering step keeps exactly
those items whose raw `nsfwLevel` field is the integer 5 or 6, or
whose raw `nsfw` field is the string `"X"` or `"XXX"`. -/
theorem c7_rating_filter_amended (items : List Item) (item : Item) :
    item ∈ nsfwOnlyFilter items ↔
      item ∈ items ∧
        (item.nsfwLevel = PyVal.int 5 ∨ item.nsfwLevel = PyVal.int 6 ∨
         item.nsfw = PyVal.str "X" ∨ item.nsfw = PyVal.str "XXX") := by
  simp only [nsfwOnlyFilter, List.mem_filter, Bool.or_eq_true,
    pyEqInt_eq_true, pyEqStr_eq_true]
  tauto

/-- **C8.** The minimum-resolution filtering step keeps exactly the
items both of whose declared dimensions parse (a falsy value parsing
as 0) and whose longer parsed side reaches the threshold; the item
with width 4000 and height 1000 passes threshold 2048, and an item
with an unparseable declared width is dropped, not kept. -/
theorem c8_min_resolution_filter :
    (∀ (thr : Int) (items : List Item) (item : Item),
      item ∈ minResolutionFilter thr items ↔
        item ∈ items ∧
          ∃ w h : Int, parseDim item.width = some w ∧
            parseDim item.height = some h ∧ max w h ≥ thr) ∧
    minResolutionFilter 2048 [c8ItemKept] = [c8ItemKept] ∧
    minResolutionFilter 2048 [c8ItemBad] = [] := by
  refine ⟨?_, by decide, by decide⟩
  intro thr items item
  simp only [minResolutionFilter, List.mem_filter]
  refine and_congr_right fun _ => ?_
  cases hw : parseDim item.width with
  | none => simp [hw]
  | some w =>
      cases hh : parseDim item.height with
      | none => simp [hw, hh]
      | some h => simp [hw, hh]

/-- A repeat encounter of an identifier already satisfied in the
ledger is answered from the duplicate check alone: one skip, nothing
else touched. -/
theorem download_image_db_skip (c : Config) (s : ScraperState) (url fn : String)
    (md : Option Metadata) (iid : PyVal) (resp : FetchResult)
    (hdb : c.use_database = true) (hid : pyTruthy iid = true)
    (hdl : _is_downloaded_db s.ledger (pyStrOf iid) = true) :
    download_image c s url fn md iid resp =
      ⟨{ s with skipped_count := s.skipped_count + 1 }, true, .skippedInDb⟩ := by
  simp [download_image, dupCheckStatus, hdb, hid, hdl]

/-- When the first attempt succeeds or skips, the retry wrapper
returns it unchanged with no sleeps. -/
theorem retry_first_short_circuit (c : Config) (s : ScraperState) (url fn : String)
    (md : Option Metadata) (iid : PyVal) (resps : Nat → FetchResult) (mr : Nat) (b : ℚ)
    (hmr : 1 ≤ mr)
    (h : ((download_image c s url fn md iid (resps 1)).ok ||
          pyStartsWith (download_image c s url fn md iid (resps 1)).status.text
            "skipped") = true) :
    _download_with_retry c s url fn md iid resps mr b =
      ⟨(download_image c s url fn md iid (resps 1)).state,
       (download_image c s url fn md iid (resps 1)).ok,
       (download_image c s url fn md iid (resps 1)).status.text, []⟩ := by
  obtain ⟨k, rfl⟩ : ∃ k, mr = k + 1 := ⟨mr - 1, by omega⟩
  have hk : k + 1 - k = 1 := by omega
  rw [_download_with_retry, _download_with_retry_aux]
  simp only [hk, h, if_true]

/-- **C1.** After a fully successful run, re-running on an identical
item set produces zero new downloads: any item whose identifier has a
`success`/`migrated` ledger record is answered by `download_image`
with a skip, without a network fetch and with only the skipped counter
advanced; folding the batch dispatcher over such an item set leaves
the whole state unchanged except `skipped_count`, which ends increased
by exactly the item count. -/
theorem c1_idempotent_rerun :
    (∀ (c : Config) (s : ScraperState) (url fn : String) (md : Option Metadata)
       (iid : PyVal) (resp : FetchResult),
      c.use_database = true → pyTruthy iid = true →
      _is_downloaded_db s.ledger (pyStrOf iid) = true →
      download_image c s url fn md iid resp =
        ⟨{ s with skipped_count := s.skipped_count + 1 }, true, .skippedInDb⟩) ∧
    (∀ (c : Config) (sm : Bool) (resps : Item → Nat → FetchResult) (b : ℚ)
       (items : List Item) (s : ScraperState),
      c.use_database = true → 1 ≤ c.max_retries →
      (∀ item ∈ items, pyTruthy item.id = true ∧ pyTruthy item.url = true ∧
        _is_downloaded_db s.ledger (pyStrOf item.id) = true) →
      _download_batch c sm resps b items s =
        { s with skipped_count := s.skipped_count + items.length }) := by
  refine ⟨fun c s url fn md iid resp hdb hid hdl =>
    download_image_db_skip c s url fn md iid resp hdb hid hdl, ?_⟩
  intro c sm resps b items s hdb hmr hall
  induction items generalizing s with
  | nil => simp [_download_batch]
  | cons item rest ih =>
      obtain ⟨hid, hurl, hdl⟩ := hall item (List.mem_cons_self item rest)
      have hskip := fun resp => download_image_db_skip c s (pyStrOf item.url)
        ("civitai_" ++ pyStrOf item.id ++ ".tmp")
        (if sm then some (mkItemMetadata item) else none) item.id resp hdb hid hdl
      have hstep :
          _download_batch c sm resps b (item :: rest) s =
            _download_batch c sm resps b rest
              { s with skipped_count := s.skipped_count + 1 } := by
        simp only [_download_batch, List.foldl_cons, hurl, Bool.not_true,
          Bool.false_eq_true, if_false]
        cases hre : c.enable_retry with
        | true =>
            rw [if_pos rfl, retry_first_short_circuit c s (pyStrOf item.url) _ _ item.id
              (resps item) c.max_retries b hmr (by rw [hskip]; rfl)]
            rw [hskip]
        | false =>
            rw [if_neg (by simp), hskip]
      rw [hstep, ih _ (fun it hit => by
        have := hall it (List.mem_cons_of_mem item hit)
        simpa using this)]
      have hlen : s.skipped_count + 1 + rest.length =
          s.skipped_count + (item :: rest).length := by
        simp [List.length_cons]; omega
      simp only [hlen]

/-- **C1 witness.** Both parts of the theorem applied to a one-item
re-run whose identifier `"10"` is already recorded as `success`. -/
theorem c1_idempotent_rerun_witness :
    download_image cfgC1 c1State "u" "f.tmp" none (PyVal.str "10")
        (FetchResult.exc "net") =
      ⟨{ c1State with skipped_count := 1 }, true, .skippedInDb⟩ ∧
    _download_batch cfgC1 true (fun _ _ => FetchResult.exc "net") 2 [c1Item] c1State =
      { c1State with skipped_count := 1 } := by
  constructor
  · exact c1_idempotent_rerun.1 cfgC1 c1State "u" "f.tmp" none (PyVal.str "10")
      (FetchResult.exc "net") rfl rfl (by decide)
  · exact c1_idempotent_rerun.2 cfgC1 true (fun _ _ => FetchResult.exc "net") 2
      [c1Item] c1State rfl (by decide)
      (fun it hit => by
        simp only [List.mem_singleton] at hit
        subst hit
        exact ⟨rfl, rfl, by decide⟩)

/-- A successful or skipped attempt ends the retry loop at once. -/
theorem retry_aux_done (c : Config) (url fn : String) (md : Option Metadata)
    (iid : PyVal) (resps : Nat → FetchResult) (mr : Nat) (b : ℚ) (k : Nat)
    (s : ScraperState) (le : Option String)
    (h : ((download_image c s url fn md iid (resps (mr - k))).ok ||
          pyStartsWith (download_image c s url fn md iid (resps (mr - k))).status.text
            "skipped") = true) :
    _download_with_retry_aux c url fn md iid resps mr b (k + 1) s le =
      ⟨(download_image c s url fn md iid (resps (mr - k))).state,
       (download_image c s url fn md iid (resps (mr - k))).ok,
       (download_image c s url fn md iid (resps (mr - k))).status.text, []⟩ := by
  simp only [_download_with_retry_aux, h, if_true]

/-- A failed attempt before the last one sleeps
`backoff_factor ^ (attempt - 1)` seconds and loops with the error
recorded. -/
theorem retry_aux_fail_sleep (c : Config) (url fn : String) (md : Option Metadata)
    (iid : PyVal) (resps : Nat → FetchResult) (mr : Nat) (b : ℚ) (k : Nat)
    (s : ScraperState) (le : Option String)
    (hlt : mr - k < mr)
    (hok : (download_image c s url fn md iid (resps (mr - k))).ok = false)
    (hsk : pyStartsWith (download_image c s url fn md iid (resps (mr - k))).status.text
      "skipped" = false) :
    _download_with_retry_aux c url fn md iid resps mr b (k + 1) s le =
      ⟨(_download_with_retry_aux c url fn md iid resps mr b k
          (download_image c s url fn md iid (resps (mr - k))).state
          (some (download_image c s url fn md iid (resps (mr - k))).status.text)).state,
       (_download_with_retry_aux c url fn md iid resps mr b k
          (download_image c s url fn md iid (resps (mr - k))).state
          (some (download_image c s url fn md iid (resps (mr - k))).status.text)).ok,
       (_download_with_retry_aux c url fn md iid resps mr b k
          (download_image c s url fn md iid (resps (mr - k))).state
          (some (download_image c s url fn md iid (resps (mr - k))).status.text)).statusText,
       b ^ (mr - k - 1) ::
         (_download_with_retry_aux c url fn md iid resps mr b k
            (download_image c s url fn md iid (resps (mr - k))).state
            (some (download_image c s url fn md iid (resps (mr - k))).status.text)).sleeps⟩ := by
  simp only [_download_with_retry_aux, hok, hsk, Bool.or_self, Bool.false_eq_true,
    if_false, if_pos hlt]

/-- A failed last attempt loops without sleeping. -/
theorem retry_aux_fail_nosleep (c : Config) (url fn : String) (md : Option Metadata)
    (iid : PyVal) (resps : Nat → FetchResult) (mr : Nat) (b : ℚ) (k : Nat)
    (s : ScraperState) (le : Option String)
    (hge : ¬ (mr - k < mr))
    (hok : (download_image c s url fn md iid (resps (mr - k))).ok = false)
    (hsk : pyStartsWith (download_image c s url fn md iid (resps (mr - k))).status.text
      "skipped" = false) :
    _download_with_retry_aux c url fn md iid resps mr b (k + 1) s le =
      _download_with_retry_aux c url fn md iid resps mr b k
        (download_image c s url fn md iid (resps (mr - k))).state
        (some (download_image c s url fn md iid (resps (mr - k))).status.text) := by
  simp only [_download_with_retry_aux, hok, hsk, Bool.or_self, Bool.false_eq_true,
    if_false, if_neg hge]

/-- **C3.** The retry wrapper: any first attempt that succeeds or
returns a skip status (of any kind) is returned unchanged with no
further attempts and no sleeps; a download failing the first two
attempts and succeeding the third under `max_retries = 3` yields a
success with exactly two sleeps, of `backoff_factor ^ 0` and
`backoff_factor ^ 1` seconds; exhausting all three attempts yields a
failure whose text preserves the last attempt's error. -/
theorem c3_retry_behavior :
    (∀ (c : Config) (s : ScraperState) (url fn : String) (md : Option Metadata)
       (iid : PyVal) (resps : Nat → FetchResult) (mr : Nat) (b : ℚ),
      1 ≤ mr →
      ((download_image c s url fn md iid (resps 1)).ok ||
        pyStartsWith (download_image c s url fn md iid (resps 1)).status.text
          "skipped") = true →
      _download_with_retry c s url fn md iid resps mr b =
        ⟨(download_image c s url fn md iid (resps 1)).state,
         (download_image c s url fn md iid (resps 1)).ok,
         (download_image c s url fn md iid (resps 1)).status.text, []⟩) ∧
    (∀ b : ℚ,
      _download_with_retry cfgPlain emptyState "u" "file.tmp" none (PyVal.str "7")
          c3resps 3 b =
        ⟨c3SuccState, true, "downloaded", [b ^ (0 : Nat), b ^ (1 : Nat)]⟩) ∧
    (∀ b : ℚ,
      _download_with_retry cfgPlain emptyState "u" "file.tmp" none (PyVal.str "7")
          c3respsFail 3 b =
        ⟨failedState 3, false, "failed after 3 retries: error: boom3",
         [b ^ (0 : Nat), b ^ (1 : Nat)]⟩) := by
  refine ⟨fun c s url fn md iid resps mr b hmr h =>
    retry_first_short_circuit c s url fn md iid resps mr b hmr h, ?_, ?_⟩
  · intro b
    show _download_with_retry_aux cfgPlain "u" "file.tmp" none (PyVal.str "7")
      c3resps 3 b (2 + 1) emptyState none = _
    rw [retry_aux_fail_sleep cfgPlain "u" "file.tmp" none (PyVal.str "7") c3resps 3 b 2
      emptyState none (by omega) (by decide) (by decide)]
    rw [show (2 : Nat) = 1 + 1 from rfl]
    rw [retry_aux_fail_sleep cfgPlain "u" "file.tmp" none (PyVal.str "7") c3resps 3 b 1
      _ _ (by omega) (by decide) (by decide)]
    rw [show (1 : Nat) = 0 + 1 from rfl]
    rw [retry_aux_done cfgPlain "u" "file.tmp" none (PyVal.str "7") c3resps 3 b 0
      _ _ (by decide)]
    rfl
  · intro b
    show _download_with_retry_aux cfgPlain "u" "file.tmp" none (PyVal.str "7")
      c3respsFail 3 b (2 + 1) emptyState none = _
    rw [retry_aux_fail_sleep cfgPlain "u" "file.tmp" none (PyVal.str "7") c3respsFail 3 b 2
      emptyState none (by omega) (by decide) (by decide)]
    rw [show (2 : Nat) = 1 + 1 from rfl]
    rw [retry_aux_fail_sleep cfgPlain "u" "file.tmp" none (PyVal.str "7") c3respsFail 3 b 1
      _ _ (by omega) (by decide) (by decide)]
    rw [show (1 : Nat) = 0 + 1 from rfl]
    rw [retry_aux_fail_nosleep cfgPlain "u" "file.tmp" none (PyVal.str "7") c3respsFail 3 b 0
      _ _ (by omega) (by decide) (by decide)]
    rfl

/-- **C3 witness.** The short-circuit part applied to a duplicate-skip
first attempt, and the backoff scenario at `backoff_factor = 2`. -/
theorem c3_retry_behavior_witness :
    _download_with_retry cfgC1 c1State "u" "f.tmp" none (PyVal.str "10")
        (fun _ => FetchResult.exc "net") 3 2 =
      ⟨{ c1State with skipped_count := 1 }, true, "skipped (in database)", []⟩ ∧
    _download_with_retry cfgPlain emptyState "u" "file.tmp" none (PyVal.str "7")
        c3resps 3 2 =
      ⟨c3SuccState, true, "downloaded", [2 ^ (0 : Nat), 2 ^ (1 : Nat)]⟩ := by
  constructor
  · rw [c3_retry_behavior.1 cfgC1 c1State "u" "f.tmp" none (PyVal.str "10")
      (fun _ => FetchResult.exc "net") 3 2 (by omega) (by decide)]
    decide
  · exact c3_retry_behavior.2.1 2

/-- Removing a path leaves no entry under that path. -/
theorem containsFile_removeFile_self (fs : FileSys) (p : String) :
    containsFile (removeFile fs p) p = false := by
  simp only [containsFile, removeFile, List.any_eq_false]
  intro x hx
  rcases List.mem_filter.mp hx with ⟨-, hne⟩
  simpa using fun he => by simp [he] at hne

/-- The type-filter status string begins with `"skipped"` whatever the
extension is. -/
theorem pyStartsWith_skippedType (ext : String) :
    pyStartsWith (DLStatus.skippedType ext).text "skipped" = true := by
  rw [pyStartsWith, List.isPrefixOf_iff_prefix]
  have h1 : "skipped".toList <+: "skipped (type: ".toList := by decide
  refine h1.trans ?_
  show "skipped (type: ".data <+: ("skipped (type: " ++ ext ++ ")").data
  rw [String.append_assoc, String.data_append]
  exact List.prefix_append _ _

/-- **C5.** When an allow-list is configured and the sniffed extension
of a fetched payload is not in it, `download_image` deletes the temp
file, returns the type-filter skip outcome — a skip distinct from a
failure and from the duplicate skips — increments the filtered-by-type
counter by exactly one, leaves the other counters alone, and creates
no ledger row. -/
theorem c5_type_filter_skip :
    ∀ (c : Config) (s : ScraperState) (url fn : String) (md : Option Metadata)
      (iid : PyVal) (chunks : List (List Nat)) (fc : List Nat) (allowed : List String),
      c.use_database = true → c.dry_run = false →
      c.allowed_types = some allowed →
      pyTruthy iid = true →
      _is_downloaded_db s.ledger (pyStrOf iid) = false →
      chunks.head? = some fc → fc.isEmpty = false →
      allowed.contains (lstripDots (_detect_image_format fc).1) = false →
      (let r := download_image c s url fn md iid (.ok chunks)
       r.ok = true ∧
       r.status = .skippedType (lstripDots (_detect_image_format fc).1) ∧
       pyStartsWith r.status.text "skipped" = true ∧
       r.status ≠ .skippedExists ∧ r.status ≠ .skippedInDb ∧ r.status ≠ .skippedInLog ∧
       r.state.ledger = s.ledger ∧
       r.state.filtered_type_count = s.filtered_type_count + 1 ∧
       r.state.downloaded_count = s.downloaded_count ∧
       r.state.skipped_count = s.skipped_count ∧
       r.state.failed_count = s.failed_count ∧
       containsFile r.state.files (c.output_dir ++ "/temp_" ++ fn) = false) := by
  intro c s url fn md iid chunks fc allowed hdb hdry hal hid hdl hhead hne hcont
  have hres :
      download_image c s url fn md iid (.ok chunks) =
        ⟨{ s with
             fetch_count := s.fetch_count + 1,
             files := removeFile
               (addFile s.files (c.output_dir ++ "/temp_" ++ fn)
                 ((chunks.map List.length).sum))
               (c.output_dir ++ "/temp_" ++ fn),
             filtered_type_count := s.filtered_type_count + 1 },
         true, .skippedType (lstripDots (_detect_image_format fc).1)⟩ := by
    simp only [download_image, dupCheckStatus, handlePayload, placeAndRecord,
      computePaths, hdb, hid, hdl, hdry, hal, hhead, hne, hcont,
      Bool.false_eq_true, if_false, if_true, Bool.not_false, Bool.not_true,
      removeFile, addFile]
  rw [hres]
  refine ⟨rfl, rfl, pyStartsWith_skippedType _, by simp, by simp, by simp,
    rfl, rfl, rfl, rfl, rfl, containsFile_removeFile_self _ _⟩

/-- **C5 witness.** The theorem applied to an allow-list of `["png"]`
and a JPEG payload. -/
theorem c5_type_filter_skip_witness :
    (let r := download_image cfgC5 emptyState "u" "f.tmp" none (PyVal.str "9")
        (FetchResult.ok [jpgSig])
     r.ok = true ∧
     r.status = .skippedType (lstripDots (_detect_image_format jpgSig).1) ∧
     pyStartsWith r.status.text "skipped" = true ∧
     r.status ≠ .skippedExists ∧ r.status ≠ .skippedInDb ∧ r.status ≠ .skippedInLog ∧
     r.state.ledger = emptyState.ledger ∧
     r.state.filtered_type_count = emptyState.filtered_type_count + 1 ∧
     r.state.downloaded_count = emptyState.downloaded_count ∧
     r.state.skipped_count = emptyState.skipped_count ∧
     r.state.failed_count = emptyState.failed_count ∧
     containsFile r.state.files (cfgC5.output_dir ++ "/temp_" ++ "f.tmp") = false) :=
  c5_type_filter_skip cfgC5 emptyState "u" "f.tmp" none (PyVal.str "9") [jpgSig] jpgSig
    ["png"] rfl rfl rfl rfl (by decide) rfl rfl (by decide)

/-- Filtering out one key leaves lookups of any other key unchanged. -/
theorem lookupFile_filter_ne (fs : FileSys) (p q : String) (h : ¬ q = p) :
    lookupFile (fs.filter (fun e => e.1 != p)) q = lookupFile fs q := by
  induction fs with
  | nil => rfl
  | cons e rest ih =>
      rw [List.filter_cons]
      by_cases hep : e.1 = p
      · have h1 : (e.1 != p) = false := by simp [hep]
        have h2 : (e.1 == q) = false := by
          refine beq_eq_false_iff_ne.mpr fun hq => h ?_
          rw [← hq, hep]
        simp only [h1, Bool.false_eq_true, if_false, lookupFile, List.find?, h2]
        exact ih
      · have h1 : (e.1 != p) = true := by simp [hep]
        by_cases heq : e.1 = q
        · have h2 : (e.1 == q) = true := by simp [heq]
          simp only [h1, if_true, lookupFile, List.find?, h2]
        · have h2 : (e.1 == q) = false := by simp [heq]
          simp only [h1, if_true, lookupFile, List.find?, h2]
          exact ih

/-- `os.remove` on one path leaves other paths' lookups unchanged. -/
theorem lookupFile_removeFile_ne (fs : FileSys) (p q : String) (h : ¬ q = p) :
    lookupFile (removeFile fs p) q = lookupFile fs q :=
  lookupFile_filter_ne fs p q h

/-- Writing one path leaves other paths' lookups unchanged. -/
theorem lookupFile_addFile_ne (fs : FileSys) (p q : String) (n : Nat) (h : ¬ q = p) :
    lookupFile (addFile fs p n) q = lookupFile fs q := by
  have h2 : ((p, n).1 == q) = false := beq_eq_false_iff_ne.mpr fun hp => h hp.symm
  simp only [addFile, lookupFile, List.find?, h2]
  exact lookupFile_filter_ne fs p q h

/-- `Path.exists` agrees with the lookup map. -/
theorem containsFile_eq_isSome (fs : FileSys) (p : String) :
    containsFile fs p = (lookupFile fs p).isSome := by
  induction fs with
  | nil => rfl
  | cons e rest ih =>
      by_cases he : e.1 = p
      · have h2 : (e.1 == p) = true := by simp [he]
        simp [containsFile, lookupFile, List.any_cons, List.find?, h2]
      · have h2 : (e.1 == p) = false := by simp [he]
        simp only [containsFile, lookupFile, List.any_cons, List.find?, h2,
          Bool.false_or]
        exact ih

/-- **C6.** A payload whose final storage path is already occupied is
treated as a duplicate: the temp file is deleted, nothing is renamed
(the on-disk file keeps its byte size), the outcome is the
exists-skip with the skipped counter advanced by one, and — the
identifier not being satisfied in the ledger yet — a ledger upsert
records the on-disk file with its actual byte size, so the identifier
becomes satisfied. -/
theorem c6_exists_skip_upsert :
    ∀ (c : Config) (s : ScraperState) (url fn : String) (md : Option Metadata)
      (iid : PyVal) (chunks : List (List Nat)) (fc : List Nat) (n : Nat),
      c.use_database = true → c.dry_run = false → c.allowed_types = none →
      c.organize_by_nsfw = false →
      pyTruthy iid = true →
      _is_downloaded_db s.ledger (pyStrOf iid) = false →
      chunks.head? = some fc → fc.isEmpty = false →
      (_detect_image_format fc).2 = false →
      lookupFile s.files
        (c.output_dir ++ "/" ++ (splitextBase fn ++ (_detect_image_format fc).1))
        = some n →
      ¬ (c.output_dir ++ "/" ++ (splitextBase fn ++ (_detect_image_format fc).1)
          = c.output_dir ++ "/temp_" ++ fn) →
      (let filepath :=
        c.output_dir ++ "/" ++ (splitextBase fn ++ (_detect_image_format fc).1)
       let r := download_image c s url fn md iid (.ok chunks)
       r.ok = true ∧
       r.status = .skippedExists ∧
       r.state.skipped_count = s.skipped_count + 1 ∧
       r.state.downloaded_count = s.downloaded_count ∧
       r.state.failed_count = s.failed_count ∧
       r.state.filtered_type_count = s.filtered_type_count ∧
       containsFile r.state.files (c.output_dir ++ "/temp_" ++ fn) = false ∧
       lookupFile r.state.files filepath = some n ∧
       r.state.ledger =
         _log_download_db s.ledger (pyStrOf iid) url filepath n md "success"
           none none ∧
       _is_downloaded_db r.state.ledger (pyStrOf iid) = true ∧
       (findRow r.state.ledger (pyStrOf iid)).map
           (fun row => (row.file_size, row.status)) = some (n, "success")) := by
  intro c s url fn md iid chunks fc n hdb hdry hal horg hid hdl hhead hne hvid
    hlook hnep
  have hlk1 :
      lookupFile
        (addFile s.files (c.output_dir ++ "/temp_" ++ fn) ((chunks.map List.length).sum))
        (c.output_dir ++ "/" ++ (splitextBase fn ++ (_detect_image_format fc).1))
        = some n := by
    rw [lookupFile_addFile_ne _ _ _ _ hnep]
    exact hlook
  have hcont :
      containsFile
        (addFile s.files (c.output_dir ++ "/temp_" ++ fn) ((chunks.map List.length).sum))
        (c.output_dir ++ "/" ++ (splitextBase fn ++ (_detect_image_format fc).1))
        = true := by
    rw [containsFile_eq_isSome, hlk1]
    rfl
  have hlk2 :
      lookupFile
        (removeFile
          (addFile s.files (c.output_dir ++ "/temp_" ++ fn)
            ((chunks.map List.length).sum))
          (c.output_dir ++ "/temp_" ++ fn))
        (c.output_dir ++ "/" ++ (splitextBase fn ++ (_detect_image_format fc).1))
        = some n := by
    rw [lookupFile_removeFile_ne _ _ _ hnep]
    exact hlk1
  have hres :
      download_image c s url fn md iid (.ok chunks) =
        ⟨{ s with
             fetch_count := s.fetch_count + 1,
             files := removeFile
               (addFile s.files (c.output_dir ++ "/temp_" ++ fn)
                 ((chunks.map List.length).sum))
               (c.output_dir ++ "/temp_" ++ fn),
             ledger := _log_download_db s.ledger (pyStrOf iid) url
               (c.output_dir ++ "/" ++ (splitextBase fn ++ (_detect_image_format fc).1))
               n md "success" none none,
             skipped_count := s.skipped_count + 1 },
         true, .skippedExists⟩ := by
    simp only [download_image, dupCheckStatus, handlePayload, placeAndRecord,
      computePaths, hdb, hid, hdl, hdry, hal, horg, hhead, hne, hvid, hcont,
      hlk2, Bool.false_eq_true, if_false, if_true, Bool.not_false,
      Bool.not_true, Option.getD_some]
  rw [hres]
  refine ⟨rfl, rfl, rfl, rfl, rfl, rfl, containsFile_removeFile_self _ _, hlk2,
    rfl, ?_, ?_⟩
  · simp [_log_download_db, upsertRow, _is_downloaded_db]
  · simp [_log_download_db, upsertRow, findRow, List.find?]

/-- **C6 witness.** The theorem applied to a 5-byte `downloads/f.png`
already on disk with no ledger row. -/
theorem c6_exists_skip_upsert_witness :
    (let filepath := cfgPlain.output_dir ++ "/" ++
      (splitextBase "f.tmp" ++ (_detect_image_format pngSig).1)
     let r := download_image cfgPlain c6State "u" "f.tmp" none (PyVal.str "9")
       (.ok [pngSig])
     r.ok = true ∧
     r.status = .skippedExists ∧
     r.state.skipped_count = c6State.skipped_count + 1 ∧
     r.state.downloaded_count = c6State.downloaded_count ∧
     r.state.failed_count = c6State.failed_count ∧
     r.state.filtered_type_count = c6State.filtered_type_count ∧
     containsFile r.state.files (cfgPlain.output_dir ++ "/temp_" ++ "f.tmp") = false ∧
     lookupFile r.state.files filepath = some 5 ∧
     r.state.ledger =
       _log_download_db c6State.ledger (pyStrOf (PyVal.str "9")) "u" filepath 5 none
         "success" none none ∧
     _is_downloaded_db r.state.ledger (pyStrOf (PyVal.str "9")) = true ∧
     (findRow r.state.ledger (pyStrOf (PyVal.str "9"))).map
         (fun row => (row.file_size, row.status)) = some (5, "success")) :=
  c6_exists_skip_upsert cfgPlain c6State "u" "f.tmp" none (PyVal.str "9") [pngSig]
    pngSig 5 rfl rfl rfl rfl rfl (by decide) rfl rfl (by decide) (by decide)
    (by decide)

/-- **C9 counterexample.** In dry-run mode the pipeline does not
execute the fetch or the classification: for a non-satisfied item the
call succeeds as `simulated` even though the only possible fetch
outcome is an exception, and the fetch counter stays 0. -/
theorem c9_dry_run_counterexample :
    download_image cfgDry emptyState "u" "f.tmp" none (PyVal.str "9")
        (FetchResult.exc "network down") =
      ⟨{ emptyState with downloaded_count := 1 }, true, .simulated⟩ ∧
    (download_image cfgDry emptyState "u" "f.tmp" none (PyVal.str "9")
        (FetchResult.exc "network down")).state.fetch_count = 0 := by
  constructor
  · decide
  · decide

/-- **C9 (amended).** In dry-run mode, for an item whose identifier is
not already satisfied, `download_image` performs the duplicate check
and then returns the `simulated` success outcome immediately,
incrementing the downloaded counter by exactly one; it performs no
fetch, no classification, and no file or ledger write (the state is
otherwise unchanged, and the result does not depend on the network at
all). -/
theorem c9_dry_run_amended :
    ∀ (c : Config) (s : ScraperState) (url fn : String) (md : Option Metadata)
      (iid : PyVal) (resp : FetchResult),
      c.dry_run = true → c.use_database = true → pyTruthy iid = true →
      _is_downloaded_db s.ledger (pyStrOf iid) = false →
      download_image c s url fn md iid resp =
        ⟨{ s with downloaded_count := s.downloaded_count + 1 }, true, .simulated⟩ := by
  intro c s url fn md iid resp hdry hdb hid hdl
  simp [download_image, dupCheckStatus, hdry, hdb, hid, hdl]

/-- **C9 witness.** The amended theorem applied to `cfgDry` and a
fresh state. -/
theorem c9_dry_run_amended_witness :
    download_image cfgDry emptyState "u2" "g.tmp" none (PyVal.str "8")
        (FetchResult.ok [pngSig]) =
      ⟨{ emptyState with downloaded_count := 1 }, true, .simulated⟩ :=
  c9_dry_run_amended cfgDry emptyState "u2" "g.tmp" none (PyVal.str "8")
    (FetchResult.ok [pngSig]) rfl rfl rfl (by decide)

/-- Sum of the four outcome counters. -/
def counterTotal (s : ScraperState) : Nat :=
  s.downloaded_count + s.skipped_count + s.failed_count + s.filtered_type_count

/-- Placement (exists-skip or rename-and-record) advances exactly one
counter by one. -/
theorem counters_placeAndRecord (c : Config) (s1 : ScraperState) (url fn : String)
    (md : Option Metadata) (iid : PyVal) (psz : Nat) (ext : String) (iv : Bool) :
    (let r := placeAndRecord c s1 url fn md iid psz ext iv
     counterTotal r.state = counterTotal s1 + 1 ∧
     (r.state.downloaded_count = s1.downloaded_count ∨
      r.state.downloaded_count = s1.downloaded_count + 1) ∧
     (r.state.skipped_count = s1.skipped_count ∨
      r.state.skipped_count = s1.skipped_count + 1) ∧
     (r.state.failed_count = s1.failed_count ∨
      r.state.failed_count = s1.failed_count + 1) ∧
     (r.state.filtered_type_count = s1.filtered_type_count ∨
      r.state.filtered_type_count = s1.filtered_type_count + 1)) := by
  unfold placeAndRecord
  dsimp only
  by_cases hc : containsFile s1.files (computePaths c md fn ext iv).1 = true
  · simp only [hc, if_true]
    repeat' split
    all_goals dsimp only [counterTotal]
    all_goals omega
  · simp only [hc, if_false, Bool.false_eq_true]
    repeat' split
    all_goals dsimp only [counterTotal]
    all_goals omega

/-- Sniffing plus type-filter plus placement advances exactly one
counter by one. -/
theorem counters_handlePayload (c : Config) (s1 : ScraperState) (url fn : String)
    (md : Option Metadata) (iid : PyVal) (psz : Nat) (fc : List Nat) :
    (let r := handlePayload c s1 url fn md iid psz fc
     counterTotal r.state = counterTotal s1 + 1 ∧
     (r.state.downloaded_count = s1.downloaded_count ∨
      r.state.downloaded_count = s1.downloaded_count + 1) ∧
     (r.state.skipped_count = s1.skipped_count ∨
      r.state.skipped_count = s1.skipped_count + 1) ∧
     (r.state.failed_count = s1.failed_count ∨
      r.state.failed_count = s1.failed_count + 1) ∧
     (r.state.filtered_type_count = s1.filtered_type_count ∨
      r.state.filtered_type_count = s1.filtered_type_count + 1)) := by
  unfold handlePayload
  dsimp only
  cases hal : c.allowed_types with
  | none =>
      simp only [Bool.false_eq_true, if_false]
      exact counters_placeAndRecord c s1 url fn md iid psz _ _
  | some allowed =>
      dsimp only
      by_cases hct :
        (!(allowed.contains (lstripDots (_detect_image_format fc).1))) = true
      · rw [if_pos hct]
        dsimp only [counterTotal]
        omega
      · rw [if_neg hct]
        exact counters_placeAndRecord c s1 url fn md iid psz _ _

/-- **C10.** Every return path of `download_image` increments exactly
one of the four outcome counters, and by exactly one: the counter sum
always grows by one while each individual counter grows by zero or
one. -/
theorem c10_counter_invariant :
    ∀ (c : Config) (s : ScraperState) (url fn : String) (md : Option Metadata)
      (iid : PyVal) (resp : FetchResult),
      (let r := download_image c s url fn md iid resp
       counterTotal r.state = counterTotal s + 1 ∧
       (r.state.downloaded_count = s.downloaded_count ∨
        r.state.downloaded_count = s.downloaded_count + 1) ∧
       (r.state.skipped_count = s.skipped_count ∨
        r.state.skipped_count = s.skipped_count + 1) ∧
       (r.state.failed_count = s.failed_count ∨
        r.state.failed_count = s.failed_count + 1) ∧
       (r.state.filtered_type_count = s.filtered_type_count ∨
        r.state.filtered_type_count = s.filtered_type_count + 1)) := by
  intro c s url fn md iid resp
  unfold download_image
  cases hdup : dupCheckStatus c s iid with
  | some st => dsimp only [counterTotal]; omega
  | none =>
      dsimp only
      split
      · dsimp only [counterTotal]; omega
      · cases resp with
        | exc msg => dsimp only [counterTotal]; omega
        | ok chunks =>
            dsimp only
            cases hh : chunks.head? with
            | none => dsimp only [counterTotal]; omega
            | some fc =>
                dsimp only
                split
                · dsimp only [counterTotal]; omega
                · exact counters_handlePayload c _ url fn md iid _ fc

end Civitai
